import Mathlib

/-!
Shallow embedding of the `loyanhakan/webapp` Telegram Mini App backend.

Sources embedded here:
* `utils/telegram.js` (its text appears inside `git-commands.md`):
  `validateInitData`, `isInitDataRecent`.
* `utils/auth.js`: `generateToken`, `verifyToken`, `hashToken`,
  `createUserPayload`, `authenticateToken`.
* `utils/database.js`: `userOperations`, `sessionOperations`,
  `activityOperations` (both the SQL text they send and the semantics of
  those queries on a relational state).
* `server.js`: the pure acceptance condition of `POST /api/auth/login`.

External libraries (node `crypto`, `jsonwebtoken`, Postgres) are not
repository code: HMAC-SHA256 and SHA-256 are taken as abstract string
functions, JWT signing is modelled as an ideal MAC, and each SQL query's
effect is translated by hand from its fixed query text.
-/

namespace Webapp

/-! ### URLSearchParams-style parsing

`new URLSearchParams(s)` splits on `&`, drops empty pieces, and splits each
piece at the first `=` (a piece without `=` gets the empty value).  Percent
decoding is irrelevant to the properties below and is omitted.  The
splitting is written on character lists so that it evaluates inside the
kernel. -/

def splitChars (sep : Char) : List Char → List (List Char)
  | [] => [[]]
  | c :: cs =>
    match splitChars sep cs with
    | [] => [[]]
    | r :: rs => if c = sep then [] :: r :: rs else (c :: r) :: rs

/-- Split a piece at its first occurrence of `sep`; `none` when absent. -/
def splitAtFirst (sep : Char) : List Char → List Char × Option (List Char)
  | [] => ([], none)
  | c :: cs =>
    if c = sep then ([], some cs)
    else
      let r := splitAtFirst sep cs
      (c :: r.1, r.2)

def parsePair (piece : List Char) : Option (String × String) :=
  if piece = [] then none
  else
    let r := splitAtFirst '=' piece
    some (String.mk r.1, String.mk (r.2.getD []))

def parseParams (s : String) : List (String × String) :=
  (splitChars '&' s.data).filterMap parsePair

/-- `params.get(k)`: the first value for `k`, or null. -/
def getParam (ps : List (String × String)) (k : String) : Option String :=
  (ps.find? (fun p => p.1 = k)).map (·.2)

/-- `params.delete(k)`: removes every entry whose key is `k`. -/
def deleteParam (ps : List (String × String)) (k : String) : List (String × String) :=
  ps.filter (fun p => p.1 ≠ k)

/-- Stable insertion into a list sorted by key (string order stands in for
`localeCompare`). -/
def insertByKey (p : String × String) : List (String × String) → List (String × String)
  | [] => [p]
  | q :: qs => if p.1 ≤ q.1 then p :: q :: qs else q :: insertByKey p qs

/-- `entries.sort(([a],[b]) => a.localeCompare(b))`: a stable sort by key. -/
def sortByKey : List (String × String) → List (String × String)
  | [] => []
  | p :: ps => insertByKey p (sortByKey ps)

/-- The data-check string: sorted `key=value` lines joined by newlines. -/
def dataCheckString (ps : List (String × String)) : String :=
  String.intercalate "\n" ((sortByKey ps).map (fun p => p.1 ++ "=" ++ p.2))

/-! ### JavaScript `parseInt` on `params.get(...)` results

`parseInt(null)` is `NaN`; on a string it skips leading whitespace, reads an
optional sign and then leading decimal digits, and is `NaN` when no digit
follows.  `none` stands for `NaN`. -/

def digitsPrefixVal (acc : Nat) : List Char → Nat
  | [] => acc
  | c :: cs => if c.isDigit then digitsPrefixVal (acc * 10 + (c.toNat - 48)) cs else acc

def hasDigitPrefix : List Char → Bool
  | [] => false
  | c :: _ => c.isDigit

def parseIntJs : Option String → Option Int
  | none => none
  | some s =>
    let t := s.data.dropWhile Char.isWhitespace
    let (sign, body) :=
      match t with
      | '-' :: cs => ((-1 : Int), cs)
      | '+' :: cs => ((1 : Int), cs)
      | cs => ((1 : Int), cs)
    if hasDigitPrefix body then some (sign * digitsPrefixVal 0 body) else none

/-! ### validateInitData (utils/telegram.js) -/

/-- The user object assembled from `user.*` parameters.  `id` is the
`parseInt` result (`none` = `NaN`); string fields are `null` when absent. -/
structure TgUser where
  id : Option Int
  first_name : Option String
  last_name : Option String
  username : Option String
  language_code : Option String
  is_premium : Bool
  allows_write_to_pm : Bool
  deriving Repr, DecidableEq

structure ValidationResult where
  isValid : Bool
  user : Option TgUser
  auth_date : Option Int
  query_id : Option String
  start_param : Option String
  error : Option String
  deriving Repr, DecidableEq

def ValidationResult.failure (msg : String) : ValidationResult :=
  { isValid := false, user := none, auth_date := none, query_id := none,
    start_param := none, error := some msg }

/-- JS falsiness of `parseInt` results: `NaN` and `0` are falsy. -/
def intFalsy : Option Int → Bool
  | none => true
  | some n => n == 0

/-- JS falsiness of `params.get` results: `null` and `""` are falsy. -/
def strFalsy : Option String → Bool
  | none => true
  | some s => s == ""

def buildTgUser (ps : List (String × String)) : TgUser :=
  { id := parseIntJs (getParam ps "user.id")
    first_name := getParam ps "user.first_name"
    last_name := getParam ps "user.last_name"
    username := getParam ps "user.username"
    language_code := getParam ps "user.language_code"
    is_premium := getParam ps "user.is_premium" == some "true"
    allows_write_to_pm := getParam ps "user.allows_write_to_pm" == some "true" }

/-- `validateInitData` from `utils/telegram.js`.  `hmacRaw k m` models
`crypto.createHmac('sha256', k).update(m).digest()` and `hmacHex` the same
with `.digest('hex')`; `initData = none` models a null/undefined argument
(`""` is equally falsy).  The `if (!hash)` guard fires both when the
parameter is absent (`params.get` returns null) and when its value is the
falsy empty string.  Every `throw` inside the `try` is caught by the
surrounding handler, which returns `{ isValid: false, error }`. -/
def validateInitData (hmacRaw hmacHex : String → String → String)
    (botToken : String) (initData : Option String) : ValidationResult :=
  match initData with
  | none => ValidationResult.failure "Init data is required"
  | some s =>
    if s = "" then ValidationResult.failure "Init data is required"
    else
      let params := parseParams s
      match getParam params "hash" with
      | none => ValidationResult.failure "Hash is missing from init data"
      | some hash =>
        if hash = "" then ValidationResult.failure "Hash is missing from init data"
        else
        let rest := deleteParam params "hash"
        let secretKey := hmacRaw "WebAppData" botToken
        let calculatedHash := hmacHex secretKey (dataCheckString rest)
        if calculatedHash ≠ hash then ValidationResult.failure "Hash validation failed"
        else
          let userData := buildTgUser rest
          if intFalsy userData.id || strFalsy userData.first_name then
            ValidationResult.failure "Invalid user data"
          else
            { isValid := true
              user := some userData
              auth_date := parseIntJs (getParam rest "auth_date")
              query_id := getParam rest "query_id"
              start_param := getParam rest "start_param"
              error := none }

/-- Just the hash comparison of `validateInitData` (the
`calculatedHash !== hash` test), on an input that reaches it; a missing or
falsy empty hash never reaches the comparison (`if (!hash)` throws first),
so no comparison passes there. -/
def hmacCheckPasses (hmacRaw hmacHex : String → String → String)
    (botToken : String) (s : String) : Bool :=
  let params := parseParams s
  match getParam params "hash" with
  | none => false
  | some hash =>
    if hash = "" then false
    else
      hmacHex (hmacRaw "WebAppData" botToken) (dataCheckString (deleteParam params "hash")) == hash

/-- `isInitDataRecent` from `utils/telegram.js`: `now - auth_date < 3600`;
any comparison against `NaN` is false. -/
def isInitDataRecent (now : Int) (s : String) : Bool :=
  match parseIntJs (getParam (parseParams s) "auth_date") with
  | none => false
  | some authDate => now - authDate < 3600

/-- The pure acceptance condition of `POST /api/auth/login` in `server.js`:
the request is rejected (400/401) unless `initData` is truthy,
`validateInitData` reports valid, and `isInitDataRecent` holds; only then
does the handler proceed to issue a token. -/
def loginAccepted (hmacRaw hmacHex : String → String → String)
    (botToken : String) (now : Int) (initData : Option String) : Bool :=
  match initData with
  | none => false
  | some s =>
    if s = "" then false
    else
      (validateInitData hmacRaw hmacHex botToken (some s)).isValid
        && isInitDataRecent now s

/-! ### JWT handling (utils/auth.js)

`jsonwebtoken` is modelled as an ideal MAC: a signed token records its
payload, registered claims and the secret it was signed with, and
verification compares that secret (plus issuer, audience and expiry)
against the expected ones.  `jwt.sign`/`jwt.verify` throw on an undefined
secret, which the `Option String` secret models. -/

structure Jwt (α : Type) where
  payload : α
  iss : String
  aud : String
  exp : Int
  sig : String
  deriving Repr, DecidableEq

def jwtSign {α : Type} (payload : α) (secret : String) (now expiresIn : Int)
    (iss aud : String) : Jwt α :=
  { payload := payload, iss := iss, aud := aud, exp := now + expiresIn, sig := secret }

def jwtVerify {α : Type} (t : Jwt α) (secret iss aud : String) (now : Int) : Option α :=
  if t.sig = secret ∧ t.iss = iss ∧ t.aud = aud ∧ now < t.exp then some t.payload else none

/-- The issuer option hard-coded in both `generateToken` and `verifyToken`. -/
def jwtIssuer : String := "telegram-mini-app"

/-- The audience option hard-coded in both `generateToken` and `verifyToken`. -/
def jwtAudience : String := "telegram-users"

/-- `generateToken` from `utils/auth.js`: `jwt.sign(payload, JWT_SECRET,
{ expiresIn, issuer, audience })`; `none` when `JWT_SECRET` is undefined
(the library then throws and `generateToken` rethrows). -/
def generateToken {α : Type} (jwtSecret : Option String) (expiresIn : Int)
    (payload : α) (now : Int) : Option (Jwt α) :=
  jwtSecret.map (fun k => jwtSign payload k now expiresIn jwtIssuer jwtAudience)

/-- `verifyToken` from `utils/auth.js`: `jwt.verify(token, JWT_SECRET,
{ issuer, audience })`; `none` models every thrown verification error. -/
def verifyToken {α : Type} (jwtSecret : Option String) (t : Jwt α) (now : Int) : Option α :=
  jwtSecret.bind (fun k => jwtVerify t k jwtIssuer jwtAudience now)

/-- The JWT payload built by `createUserPayload` in `utils/auth.js`. -/
structure UserPayload where
  userId : Int
  telegramId : Int
  username : Option String
  firstName : Option String
  lastName : Option String
  isPremium : Bool
  deriving Repr, DecidableEq

/-! ### The relational state (database/schema.sql tables) -/

structure UserRow where
  id : Int
  telegram_id : Int
  username : Option String
  first_name : Option String
  last_name : Option String
  language_code : Option String
  is_premium : Bool
  created_at : Int
  updated_at : Int
  deriving Repr, DecidableEq

structure SessionRow where
  id : Int
  user_id : Int
  token_hash : String
  expires_at : Int
  created_at : Int
  is_active : Bool
  deriving Repr, DecidableEq

structure ActivityRow where
  id : Int
  user_id : Int
  action : String
  details : String
  ip_address : Option String
  user_agent : Option String
  created_at : Int
  deriving Repr, DecidableEq

structure Db where
  users : List UserRow
  sessions : List SessionRow
  activities : List ActivityRow
  deriving Repr, DecidableEq

/-- `createUserPayload` from `utils/auth.js`. -/
def createUserPayload (user : UserRow) : UserPayload :=
  { userId := user.id, telegramId := user.telegram_id, username := user.username,
    firstName := user.first_name, lastName := user.last_name, isPremium := user.is_premium }

/-! ### The SQL calls issued by utils/database.js

Each operation sends `pool.query(query, values)` where `query` is built as
in the source and `values` is the bound-parameter list.  The syntactic side
is kept separate from the semantics so that the parameterization property
can be stated about the strings actually sent. -/

inductive SqlValue
  | int (n : Int)
  | str (s : String)
  | optStr (s : Option String)
  | bool (b : Bool)
  | ts (t : Int)
  deriving Repr, DecidableEq

structure SqlCall where
  query : String
  params : List SqlValue
  deriving Repr, DecidableEq

/-- The record destructured from `telegramData` by `upsertUser`. -/
structure TelegramData where
  id : Int
  username : Option String
  first_name : Option String
  last_name : Option String
  language_code : Option String
  is_premium : Bool
  deriving Repr, DecidableEq

def upsertUserCall (telegramData : TelegramData) : SqlCall :=
  { query := "\n      INSERT INTO users (telegram_id, username, first_name, last_name, language_code, is_premium)\n      VALUES ($1, $2, $3, $4, $5, $6)\n      ON CONFLICT (telegram_id) \n      DO UPDATE SET \n        username = EXCLUDED.username,\n        first_name = EXCLUDED.first_name,\n        last_name = EXCLUDED.last_name,\n        language_code = EXCLUDED.language_code,\n        is_premium = EXCLUDED.is_premium,\n        updated_at = CURRENT_TIMESTAMP\n      RETURNING *\n    "
    params := [SqlValue.int telegramData.id, SqlValue.optStr telegramData.username,
      SqlValue.optStr telegramData.first_name, SqlValue.optStr telegramData.last_name,
      SqlValue.optStr telegramData.language_code, SqlValue.bool telegramData.is_premium] }

def getUserByTelegramIdCall (telegramId : Int) : SqlCall :=
  { query := "SELECT * FROM users WHERE telegram_id = $1"
    params := [SqlValue.int telegramId] }

def getUserByIdCall (userId : Int) : SqlCall :=
  { query := "SELECT * FROM users WHERE id = $1"
    params := [SqlValue.int userId] }

def createSessionCall (userId : Int) (tokenHash : String) (expiresAt : Int) : SqlCall :=
  { query := "\n      INSERT INTO sessions (user_id, token_hash, expires_at)\n      VALUES ($1, $2, $3)\n      RETURNING *\n    "
    params := [SqlValue.int userId, SqlValue.str tokenHash, SqlValue.ts expiresAt] }

def getActiveSessionCall (tokenHash : String) : SqlCall :=
  { query := "\n      SELECT s.*, u.* \n      FROM sessions s \n      JOIN users u ON s.user_id = u.id \n      WHERE s.token_hash = $1 AND s.is_active = true AND s.expires_at > NOW()\n    "
    params := [SqlValue.str tokenHash] }

def invalidateSessionCall (tokenHash : String) : SqlCall :=
  { query := "UPDATE sessions SET is_active = false WHERE token_hash = $1"
    params := [SqlValue.str tokenHash] }

def cleanExpiredSessionsCall : SqlCall :=
  { query := "DELETE FROM sessions WHERE expires_at < NOW()", params := [] }

def logActivityCall (userId : Int) (action : String) (details : String)
    (ipAddress userAgent : Option String) : SqlCall :=
  { query := "\n      INSERT INTO user_activity (user_id, action, details, ip_address, user_agent)\n      VALUES ($1, $2, $3, $4, $5)\n    "
    params := [SqlValue.int userId, SqlValue.str action, SqlValue.str details,
      SqlValue.optStr ipAddress, SqlValue.optStr userAgent] }

/-! ### Semantics of the queries on the relational state

Times (`NOW()`, `CURRENT_TIMESTAMP`, expiry timestamps) are an explicit
`now : Int` parameter. -/

/-- Fresh `SERIAL` id for an insert. -/
def nextId (ids : List Int) : Int :=
  (ids.foldr max 0) + 1

/-- `userOperations.upsertUser`: `INSERT ... ON CONFLICT (telegram_id) DO
UPDATE SET ...` — inserts a fresh row when no row has this `telegram_id`,
otherwise overwrites the conflicting row's mutable fields; `RETURNING *`
yields the resulting row. -/
def upsertUser (db : Db) (now : Int) (telegramData : TelegramData) : UserRow × Db :=
  match db.users.find? (fun u => u.telegram_id == telegramData.id) with
  | none =>
    let row : UserRow :=
      { id := nextId (db.users.map (·.id))
        telegram_id := telegramData.id
        username := telegramData.username
        first_name := telegramData.first_name
        last_name := telegramData.last_name
        language_code := telegramData.language_code
        is_premium := telegramData.is_premium
        created_at := now
        updated_at := now }
    (row, { db with users := db.users ++ [row] })
  | some u0 =>
    let upd : UserRow → UserRow := fun u =>
      { u with
        username := telegramData.username
        first_name := telegramData.first_name
        last_name := telegramData.last_name
        language_code := telegramData.language_code
        is_premium := telegramData.is_premium
        updated_at := now }
    (upd u0, { db with users := db.users.map (fun u => if u.telegram_id == telegramData.id then upd u else u) })

/-- `userOperations.getUserByTelegramId`: `SELECT * FROM users WHERE
telegram_id = $1`, first row or null. -/
def getUserByTelegramId (db : Db) (telegramId : Int) : Option UserRow :=
  db.users.find? (fun u => u.telegram_id == telegramId)

/-- `userOperations.getUserById`: `SELECT * FROM users WHERE id = $1`. -/
def getUserById (db : Db) (userId : Int) : Option UserRow :=
  db.users.find? (fun u => u.id == userId)

/-- `sessionOperations.createSession`: `INSERT INTO sessions (user_id,
token_hash, expires_at) VALUES ($1,$2,$3) RETURNING *`. -/
def createSession (db : Db) (now : Int) (userId : Int) (tokenHash : String)
    (expiresAt : Int) : SessionRow × Db :=
  let row : SessionRow :=
    { id := nextId (db.sessions.map (·.id)), user_id := userId, token_hash := tokenHash,
      expires_at := expiresAt, created_at := now, is_active := true }
  (row, { db with sessions := db.sessions ++ [row] })

/-- `sessionOperations.getActiveSession`: join of `sessions` and `users`
restricted to `token_hash = $1 AND is_active = true AND expires_at >
NOW()`; `rows[0]` or null. -/
def getActiveSession (db : Db) (now : Int) (tokenHash : String) :
    Option (SessionRow × UserRow) :=
  db.sessions.findSome? (fun s =>
    if s.token_hash == tokenHash && s.is_active && decide (now < s.expires_at) then
      (db.users.find? (fun u => u.id == s.user_id)).map (fun u => (s, u))
    else none)

/-- `sessionOperations.invalidateSession`: `UPDATE sessions SET is_active =
false WHERE token_hash = $1`. -/
def invalidateSession (db : Db) (tokenHash : String) : Db :=
  { db with sessions := db.sessions.map (fun s =>
      if s.token_hash == tokenHash then { s with is_active := false } else s) }

/-- `sessionOperations.cleanExpiredSessions`: `DELETE FROM sessions WHERE
expires_at < NOW()`; returns `result.rowCount` (the number of deleted rows)
together with the new state. -/
def cleanExpiredSessions (db : Db) (now : Int) : Nat × Db :=
  let deleted := db.sessions.filter (fun s => decide (s.expires_at < now))
  (deleted.length,
    { db with sessions := db.sessions.filter (fun s => ¬ s.expires_at < now) })

/-- The insert attempted by `activityOperations.logActivity`; `fail = true`
models the query throwing. -/
def tryInsertActivity (db : Db) (fail : Bool) (now : Int) (userId : Int)
    (action details : String) (ipAddress userAgent : Option String) : Except String Db :=
  if fail then Except.error "insert failed"
  else
    Except.ok { db with activities := db.activities ++
      [{ id := nextId (db.activities.map (·.id)), user_id := userId, action := action,
         details := details, ip_address := ipAddress, user_agent := userAgent,
         created_at := now }] }

/-- `activityOperations.logActivity`: runs the insert inside `try/catch`
and deliberately does not rethrow on failure (`// Don't throw error for
activity logging failures`), so it returns normally either way. -/
def logActivity (db : Db) (fail : Bool) (now : Int) (userId : Int)
    (action details : String) (ipAddress userAgent : Option String) : Except String Db :=
  match tryInsertActivity db fail now userId action details ipAddress userAgent with
  | Except.error _ => Except.ok db
  | Except.ok db2 => Except.ok db2

/-! ### The authentication middleware (utils/auth.js authenticateToken) -/

/-- `crypto.createHash('sha256')...digest('hex')` in `hashToken`, taken as
an abstract string function wherever the middleware is modelled. -/
def hashToken (sha256Hex : String → String) (token : String) : String :=
  sha256Hex token

/-- `authHeader && authHeader.split(' ')[1]`: the second space-separated
piece of the Authorization header, when present. -/
def extractToken (authHeader : Option String) : Option String :=
  authHeader.bind (fun h => ((splitChars ' ' h.data).map String.mk).get? 1)

/-- `jwt.verify` on a token string: an abstract decoding step (the
library's parse of the compact serialization) followed by the ideal-MAC
check against `JWT_SECRET`, the hard-coded issuer and audience, and the
expiry. -/
def verifyTokenStr (decode : String → Option (Jwt UserPayload))
    (jwtSecret : Option String) (now : Int) (token : String) : Option UserPayload :=
  (decode token).bind (fun t => verifyToken jwtSecret t now)

inductive AuthOutcome
  | proceed (user : UserRow) (session : SessionRow × UserRow) (tokenHash : String)
  | unauthorized (error : String)
  | serverError
  deriving Repr, DecidableEq

/-- `authenticateToken` from `utils/auth.js`.  `userOpFail` and
`sessionOpFail` model the database calls throwing (caught by the outer
handler as a non-JWT error, hence a 500); every JWT verification error is a
`JsonWebTokenError`/`TokenExpiredError`, hence a 401.  `proceed` is the
sole path that calls `next()`. -/
def authenticateToken (decode : String → Option (Jwt UserPayload))
    (jwtSecret : Option String) (sha256Hex : String → String) (db : Db) (now : Int)
    (userOpFail sessionOpFail : Bool) (authHeader : Option String) : AuthOutcome :=
  match extractToken authHeader with
  | none => AuthOutcome.unauthorized "Access token required"
  | some token =>
    if token = "" then AuthOutcome.unauthorized "Access token required"
    else
      match verifyTokenStr decode jwtSecret now token with
      | none => AuthOutcome.unauthorized "Invalid or expired token"
      | some decoded =>
        if userOpFail then AuthOutcome.serverError
        else
          match getUserById db decoded.userId with
          | none => AuthOutcome.unauthorized "User not found"
          | some user =>
            let tokenHash := hashToken sha256Hex token
            if sessionOpFail then AuthOutcome.serverError
            else
              match getActiveSession db now tokenHash with
              | none => AuthOutcome.unauthorized "Session expired"
              | some session => AuthOutcome.proceed user session tokenHash

/-! ### Concrete stand-ins used for closed evaluations -/

def hmacRawStub : String → String → String := fun _ _ => "K"

def hmacHexStub : String → String → String := fun _ _ => "H"

def userPayloadStub : UserPayload :=
  { userId := 1, telegramId := 7, username := some "u", firstName := some "A",
    lastName := none, isPremium := false }

def userRowStub : UserRow :=
  { id := 1, telegram_id := 7, username := some "u", first_name := some "A",
    last_name := none, language_code := none, is_premium := false,
    created_at := 0, updated_at := 0 }

def sessionRowStub : SessionRow :=
  { id := 1, user_id := 1, token_hash := "h", expires_at := 10, created_at := 0,
    is_active := true }

def dbStub : Db :=
  { users := [userRowStub], sessions := [sessionRowStub], activities := [] }

def tdStub : TelegramData :=
  { id := 7, username := some "u2", first_name := some "B", last_name := none,
    language_code := some "en", is_premium := true }

def jwtStub : Jwt UserPayload :=
  { payload := userPayloadStub, iss := jwtIssuer, aud := jwtAudience, exp := 100, sig := "k" }

def decodeStub : String → Option (Jwt UserPayload) := fun s =>
  if s = "tok" then some jwtStub else none

def shaStub : String → String := fun s => "sha-" ++ s

def sessionRowStub2 : SessionRow :=
  { id := 2, user_id := 1, token_hash := "sha-tok", expires_at := 10, created_at := 0,
    is_active := true }

def dbStub2 : Db :=
  { users := [userRowStub], sessions := [sessionRowStub2], activities := [] }

/-- A helper: filtering a list by a predicate and by its negation splits
its length. -/
theorem length_filter_split {α : Type} (p : α → Bool) (l : List α) :
    (l.filter p).length + (l.filter (fun a => !p a)).length = l.length := by
  induction l with
  | nil => rfl
  | cons a t ih => by_cases hp : p a <;> simp [List.filter_cons, hp, ← ih] <;> omega

/-- A helper: mapping with a function that transforms the predicate
pointwise transforms the count. -/
theorem countP_map_pointwise {α β : Type} (p : β → Bool) (q : α → Bool) (f : α → β)
    (l : List α) (h : ∀ a, p (f a) = q a) : (l.map f).countP p = l.countP q := by
  induction l with
  | nil => rfl
  | cons a t ih => simp [List.countP_cons, h, ih]

end Webapp

namespace Webapp

/-- A helper: every failure result has `isValid = false` and an error. -/
theorem failure_shape (msg : String) :
    (ValidationResult.failure msg).isValid = false ∧
      (ValidationResult.failure msg).error = some msg :=
  ⟨rfl, rfl⟩

/-- C1: if `validateInitData` reports `isValid` then the supplied `hash`
parameter equals the hex HMAC-SHA256 of the data-check string (hash
removed, pairs sorted by key, joined by newlines) under the key
HMAC-SHA256("WebAppData", BOT_TOKEN). -/
theorem validateInitData_isValid_implies_hash_eq_hmac
    (hr hh : String → String → String) (bt s hash : String)
    (hhash : getParam (parseParams s) "hash" = some hash)
    (hvalid : (validateInitData hr hh bt (some s)).isValid = true) :
    hash = hh (hr "WebAppData" bt) (dataCheckString (deleteParam (parseParams s) "hash")) := by
  by_cases hs : s = ""
  · subst hs
    have h0 : getParam (parseParams "") "hash" = none := rfl
    exact absurd (h0.symm.trans hhash) (by simp)
  · by_cases hc :
        hh (hr "WebAppData" bt) (dataCheckString (deleteParam (parseParams s) "hash")) = hash
    · exact hc.symm
    · exfalso
      by_cases hhe : hash = ""
      · simp [validateInitData, hs, hhash, hhe, ValidationResult.failure] at hvalid
      · simp [validateInitData, hs, hhash, hhe, hc, ValidationResult.failure] at hvalid

/-- Witness for C1 at a concrete validating input. -/
theorem validateInitData_hash_eq_hmac_witness :
    getParam (parseParams "auth_date=1&hash=H&user.first_name=A&user.id=5") "hash" = some "H" ∧
      (validateInitData hmacRawStub hmacHexStub "t"
        (some "auth_date=1&hash=H&user.first_name=A&user.id=5")).isValid = true ∧
      "H" = hmacHexStub (hmacRawStub "WebAppData" "t")
        (dataCheckString (deleteParam
          (parseParams "auth_date=1&hash=H&user.first_name=A&user.id=5") "hash")) :=
  ⟨rfl, rfl,
    validateInitData_isValid_implies_hash_eq_hmac hmacRawStub hmacHexStub "t"
      "auth_date=1&hash=H&user.first_name=A&user.id=5" "H" rfl rfl⟩

/-- C2 counterexample: an init-data string whose HMAC comparison succeeds
(`hash=H` with the stub HMAC) and yet the login operation rejects it — the
hash comparison is not the only condition deciding acceptance (here the
required `user.id`/`user.first_name` are missing). -/
theorem login_not_single_hmac_check_counterexample :
    hmacCheckPasses hmacRawStub hmacHexStub "t" "hash=H" = true ∧
      loginAccepted hmacRawStub hmacHexStub "t" 0 (some "hash=H") = false :=
  ⟨rfl, rfl⟩

/-- C2 amended: the login operation accepts exactly when the HMAC
comparison succeeds (which presupposes a `hash` parameter), the parsed user
has a truthy `id` and `first_name`, and the `auth_date` is recent. -/
theorem loginAccepted_iff_hmac_and_user_and_recent
    (hr hh : String → String → String) (bt : String) (now : Int) (s : String) :
    loginAccepted hr hh bt now (some s) =
      (hmacCheckPasses hr hh bt s
        && !(intFalsy (buildTgUser (deleteParam (parseParams s) "hash")).id
            || strFalsy (buildTgUser (deleteParam (parseParams s) "hash")).first_name)
        && isInitDataRecent now s) := by
  by_cases hs : s = ""
  · subst hs
    rfl
  · cases hg : getParam (parseParams s) "hash" with
    | none =>
      simp [loginAccepted, validateInitData, hmacCheckPasses, hs, hg, ValidationResult.failure]
    | some hash =>
      by_cases hhe : hash = ""
      · simp [loginAccepted, validateInitData, hmacCheckPasses, hs, hg, hhe,
          ValidationResult.failure]
      · by_cases hc :
            hh (hr "WebAppData" bt) (dataCheckString (deleteParam (parseParams s) "hash")) = hash
        · by_cases hu :
              (intFalsy (buildTgUser (deleteParam (parseParams s) "hash")).id
                || strFalsy (buildTgUser (deleteParam (parseParams s) "hash")).first_name) = true
          · simp [loginAccepted, validateInitData, hmacCheckPasses, hs, hg, hhe, hc, hu,
              ValidationResult.failure]
          · simp only [Bool.not_eq_true] at hu
            simp [loginAccepted, validateInitData, hmacCheckPasses, hs, hg, hhe, hc, hu,
              ValidationResult.failure]
        · have hbeq : (hh (hr "WebAppData" bt)
              (dataCheckString (deleteParam (parseParams s) "hash")) == hash) = false := by
            simp [hc]
          simp [loginAccepted, validateInitData, hmacCheckPasses, hs, hg, hhe, hc, hbeq,
            ValidationResult.failure]

/-- C4: `validateInitData` is total — on every input (null included) it
returns a result object: with the parsed user when `isValid`, and with an
error message on every failure. -/
theorem validateInitData_total_result_shape
    (hr hh : String → String → String) (bt : String) (inp : Option String) :
    ((validateInitData hr hh bt inp).isValid = true →
      ((validateInitData hr hh bt inp).user.isSome = true ∧
        (validateInitData hr hh bt inp).error = none)) ∧
    ((validateInitData hr hh bt inp).isValid = false →
      ((validateInitData hr hh bt inp).error.isSome = true ∧
        (validateInitData hr hh bt inp).user = none)) := by
  cases inp with
  | none => simp [validateInitData, ValidationResult.failure]
  | some s =>
    simp only [validateInitData]
    split
    · simp [ValidationResult.failure]
    · split
      · simp [ValidationResult.failure]
      · split
        · simp [ValidationResult.failure]
        · split
          · simp [ValidationResult.failure]
          · split
            · simp [ValidationResult.failure]
            · simp

/-- Witness for C4: a validating input yields a user, a null input yields
an error message. -/
theorem validateInitData_total_result_shape_witness :
    ((validateInitData hmacRawStub hmacHexStub "t"
        (some "auth_date=1&hash=H&user.first_name=A&user.id=5")).user.isSome = true ∧
      (validateInitData hmacRawStub hmacHexStub "t"
        (some "auth_date=1&hash=H&user.first_name=A&user.id=5")).error = none) ∧
    ((validateInitData hmacRawStub hmacHexStub "t" none).error.isSome = true ∧
      (validateInitData hmacRawStub hmacHexStub "t" none).user = none) :=
  ⟨(validateInitData_total_result_shape hmacRawStub hmacHexStub "t"
      (some "auth_date=1&hash=H&user.first_name=A&user.id=5")).1 rfl,
    (validateInitData_total_result_shape hmacRawStub hmacHexStub "t" none).2 rfl⟩

/-- C3: with a defined `JWT_SECRET` and before expiry,
`verifyToken (generateToken p)` succeeds with exactly the payload `p`, and
the token carries issuer `telegram-mini-app` and audience `telegram-users`;
verifying the same token under a different secret, expected issuer, or
expected audience fails. -/
theorem verifyToken_generateToken_roundtrip {α : Type} (p : α) (k : String)
    (expiresIn now t : Int) (hexp : t < now + expiresIn) :
    ∃ tok, generateToken (some k) expiresIn p now = some tok ∧
      verifyToken (some k) tok t = some p ∧
      tok.iss = jwtIssuer ∧ tok.aud = jwtAudience ∧
      (∀ k2, k2 ≠ k → jwtVerify tok k2 jwtIssuer jwtAudience t = none) ∧
      (∀ i2, i2 ≠ jwtIssuer → jwtVerify tok k i2 jwtAudience t = none) ∧
      (∀ a2, a2 ≠ jwtAudience → jwtVerify tok k jwtIssuer a2 t = none) := by
  refine ⟨jwtSign p k now expiresIn jwtIssuer jwtAudience, rfl, ?_, rfl, rfl, ?_, ?_, ?_⟩
  · simp [verifyToken, jwtVerify, jwtSign, hexp]
  · intro k2 hk
    simp [jwtVerify, jwtSign, hk.symm]
  · intro i2 hi
    simp [jwtVerify, jwtSign, hi.symm]
  · intro a2 ha
    simp [jwtVerify, jwtSign, ha.symm]

/-- Witness for C3 at a concrete payload and secret. -/
theorem verifyToken_generateToken_roundtrip_witness :
    (0 : Int) < 0 + 604800 ∧
      ∃ tok, generateToken (some "secret") 604800 userPayloadStub 0 = some tok ∧
        verifyToken (some "secret") tok 0 = some userPayloadStub ∧
        tok.iss = jwtIssuer ∧ tok.aud = jwtAudience ∧
        (∀ k2, k2 ≠ "secret" → jwtVerify tok k2 jwtIssuer jwtAudience 0 = none) ∧
        (∀ i2, i2 ≠ jwtIssuer → jwtVerify tok "secret" i2 jwtAudience 0 = none) ∧
        (∀ a2, a2 ≠ jwtAudience → jwtVerify tok "secret" jwtIssuer a2 0 = none) :=
  ⟨by decide,
    verifyToken_generateToken_roundtrip userPayloadStub "secret" 604800 0 0 (by decide)⟩

/-- C5: `getActiveSession` only returns sessions that carry the queried
token hash, are flagged active, and expire strictly in the future; and
after `invalidateSession` on that hash it returns null. -/
theorem getActiveSession_spec (db : Db) (now : Int) (h : String) :
    (∀ s u, getActiveSession db now h = some (s, u) →
      s.token_hash = h ∧ s.is_active = true ∧ now < s.expires_at) ∧
    getActiveSession (invalidateSession db h) now h = none := by
  constructor
  · intro s u hfind
    obtain ⟨a, _, hfa⟩ := List.exists_of_findSome?_eq_some hfind
    by_cases hp : (a.token_hash == h && a.is_active && decide (now < a.expires_at)) = true
    · rw [if_pos hp] at hfa
      obtain ⟨u2, _, heq⟩ := Option.map_eq_some'.mp hfa
      injection heq with h1 h2
      subst h1
      simp only [Bool.and_eq_true, beq_iff_eq, decide_eq_true_eq] at hp
      exact ⟨hp.1.1, hp.1.2, hp.2⟩
    · rw [if_neg hp] at hfa
      cases hfa
  · simp only [getActiveSession, invalidateSession, List.findSome?_map]
    rw [List.findSome?_eq_none_iff]
    intro x _
    simp only [Function.comp_apply]
    by_cases hxh : (x.token_hash == h) = true
    · simp [hxh]
    · simp [hxh]

/-- Witness for C5 at a concrete database. -/
theorem getActiveSession_spec_witness :
    sessionRowStub.token_hash = "h" ∧ sessionRowStub.is_active = true ∧
      (5 : Int) < sessionRowStub.expires_at :=
  (getActiveSession_spec dbStub 5 "h").1 sessionRowStub userRowStub rfl

/-- C6: `cleanExpiredSessions` deletes exactly the session rows expired at
`now`, keeps every other session and the whole `users` and `user_activity`
tables, and returns the number of deleted rows. -/
theorem cleanExpiredSessions_spec (db : Db) (now : Int) :
    ((cleanExpiredSessions db now).2.users = db.users) ∧
    ((cleanExpiredSessions db now).2.activities = db.activities) ∧
    (∀ s, s ∈ (cleanExpiredSessions db now).2.sessions ↔
      (s ∈ db.sessions ∧ ¬ s.expires_at < now)) ∧
    ((cleanExpiredSessions db now).1 + (cleanExpiredSessions db now).2.sessions.length
      = db.sessions.length) ∧
    ((cleanExpiredSessions db now).1
      = db.sessions.countP (fun s => decide (s.expires_at < now))) := by
  refine ⟨rfl, rfl, ?_, ?_, ?_⟩
  · intro s
    simp [cleanExpiredSessions, List.mem_filter]
  · simp only [cleanExpiredSessions, decide_not]
    exact length_filter_split _ _
  · simp [cleanExpiredSessions, List.countP_eq_length_filter]

/-- Witness for C6: an unexpired session survives the cleanup. -/
theorem cleanExpiredSessions_spec_witness :
    sessionRowStub ∈ (cleanExpiredSessions dbStub 5).2.sessions :=
  ((cleanExpiredSessions_spec dbStub 5).2.2.1 sessionRowStub).mpr ⟨by decide, by decide⟩

/-- C7: every operation of `userOperations`, `sessionOperations` and
`activityOperations` sends a query text that does not depend on its
arguments (the arguments travel only in the bound-parameter list);
`cleanExpiredSessions` takes no arguments and its query is the constant
`cleanExpiredSessionsCall.query`. -/
theorem dbOperations_query_text_constant :
    (∀ a b : TelegramData, (upsertUserCall a).query = (upsertUserCall b).query) ∧
    (∀ a b : Int, (getUserByTelegramIdCall a).query = (getUserByTelegramIdCall b).query) ∧
    (∀ a b : Int, (getUserByIdCall a).query = (getUserByIdCall b).query) ∧
    (∀ (u1 u2 : Int) (h1 h2 : String) (e1 e2 : Int),
      (createSessionCall u1 h1 e1).query = (createSessionCall u2 h2 e2).query) ∧
    (∀ a b : String, (getActiveSessionCall a).query = (getActiveSessionCall b).query) ∧
    (∀ a b : String, (invalidateSessionCall a).query = (invalidateSessionCall b).query) ∧
    (∀ (x1 x2 : Int) (a1 a2 d1 d2 : String) (i1 i2 g1 g2 : Option String),
      (logActivityCall x1 a1 d1 i1 g1).query = (logActivityCall x2 a2 d2 i2 g2).query) :=
  ⟨fun _ _ => rfl, fun _ _ => rfl, fun _ _ => rfl, fun _ _ _ _ _ _ => rfl,
    fun _ _ => rfl, fun _ _ => rfl, fun _ _ _ _ _ _ _ _ _ _ => rfl⟩

/-- C10: `logActivity` returns normally on every input — in particular,
when the underlying insert fails the error is swallowed and the state is
left unchanged — so no caller can fail because of it. -/
theorem logActivity_never_fails (db : Db) (fail : Bool) (now userId : Int)
    (action details : String) (ip ua : Option String) :
    (∃ db2, logActivity db fail now userId action details ip ua = Except.ok db2) ∧
    logActivity db true now userId action details ip ua = Except.ok db := by
  refine ⟨?_, rfl⟩
  cases fail
  · exact ⟨_, rfl⟩
  · exact ⟨_, rfl⟩

/-- C8: `upsertUser` returns a row carrying the supplied field values,
that row is in the resulting table; when no row had this `telegram_id` the
table grows by exactly that row, otherwise the table keeps its size, rows
with other ids survive, and every row with this id carries the new field
values; assuming the `UNIQUE (telegram_id)` invariant held before, at most
one row carries this `telegram_id` afterwards. -/
theorem upsertUser_spec (db : Db) (now : Int) (td : TelegramData)
    (huniq : db.users.countP (fun u => u.telegram_id == td.id) ≤ 1) :
    ((upsertUser db now td).1.telegram_id = td.id ∧
      (upsertUser db now td).1.username = td.username ∧
      (upsertUser db now td).1.first_name = td.first_name ∧
      (upsertUser db now td).1.last_name = td.last_name ∧
      (upsertUser db now td).1.language_code = td.language_code ∧
      (upsertUser db now td).1.is_premium = td.is_premium) ∧
    (upsertUser db now td).1 ∈ (upsertUser db now td).2.users ∧
    (db.users.find? (fun u => u.telegram_id == td.id) = none →
      (upsertUser db now td).2.users = db.users ++ [(upsertUser db now td).1]) ∧
    (db.users.find? (fun u => u.telegram_id == td.id) ≠ none →
      ((upsertUser db now td).2.users.length = db.users.length ∧
        (∀ u ∈ db.users, (u.telegram_id == td.id) = false →
          u ∈ (upsertUser db now td).2.users) ∧
        (∀ u ∈ (upsertUser db now td).2.users, (u.telegram_id == td.id) = true →
          u.username = td.username ∧ u.first_name = td.first_name ∧
          u.last_name = td.last_name ∧ u.language_code = td.language_code ∧
          u.is_premium = td.is_premium))) ∧
    (upsertUser db now td).2.users.countP (fun u => u.telegram_id == td.id) ≤ 1 := by
  cases hfind : db.users.find? (fun u => u.telegram_id == td.id) with
  | none =>
    have h0 : db.users.countP (fun u => u.telegram_id == td.id) = 0 := by
      rw [List.countP_eq_zero]
      intro a ha
      simpa using List.find?_eq_none.mp hfind a ha
    simp [upsertUser, hfind, List.countP_append, List.countP_cons, h0]
  | some u0 =>
    have hmem : u0 ∈ db.users := List.mem_of_find?_eq_some hfind
    have hpred0 := List.find?_some hfind
    have hpred : (u0.telegram_id == td.id) = true := by simpa using hpred0
    refine ⟨?_, ?_, ?_, ?_, ?_⟩
    · simp [upsertUser, hfind, eq_of_beq hpred]
    · simp only [upsertUser, hfind]
      refine List.mem_map.mpr ⟨u0, hmem, ?_⟩
      simp [hpred]
    · intro h
      simp [hfind] at h
    · intro _
      simp only [upsertUser, hfind]
      refine ⟨by simp, ?_, ?_⟩
      · intro u hu hne
        refine List.mem_map.mpr ⟨u, hu, ?_⟩
        simp [hne]
      · intro u hu htid
        obtain ⟨x, hx, hxe⟩ := List.mem_map.mp hu
        by_cases hpx : (x.telegram_id == td.id) = true
        · simp only [hpx, if_true] at hxe
          subst hxe
          simp
        · simp only [Bool.not_eq_true] at hpx
          simp only [hpx, Bool.false_eq_true, if_false] at hxe
          subst hxe
          rw [htid] at hpx
          cases hpx
    · simp only [upsertUser, hfind]
      refine (countP_map_pointwise _ _ _ _ ?_).trans_le huniq
      intro a
      by_cases hpa : (a.telegram_id == td.id) = true <;> simp [hpa]

/-- Witness for C8 at a concrete database satisfying the uniqueness
invariant. -/
theorem upsertUser_spec_witness :
    dbStub.users.countP (fun u => u.telegram_id == tdStub.id) ≤ 1 ∧
      (upsertUser dbStub 0 tdStub).1.username = tdStub.username :=
  ⟨by decide, (upsertUser_spec dbStub 0 tdStub (by decide)).1.2.1⟩

/-- C9: `authenticateToken` reaches the protected handler (`proceed`)
exactly when the header carries a non-empty second field, no database call
throws, the token verifies under `JWT_SECRET` with the hard-coded issuer
and audience, a user with the decoded `userId` exists, and an active
unexpired session matches the SHA-256 hash of the token; in every other
case it responds 401 or (on unexpected errors) 500 and never proceeds. -/
theorem authenticateToken_spec (decode : String → Option (Jwt UserPayload))
    (jwtSecret : Option String) (sha : String → String) (db : Db) (now : Int)
    (uf sf : Bool) (hdr : Option String) :
    ((∃ user sess th, authenticateToken decode jwtSecret sha db now uf sf hdr
        = AuthOutcome.proceed user sess th) ↔
      (∃ tok, extractToken hdr = some tok ∧ tok ≠ "" ∧ uf = false ∧ sf = false ∧
        (∃ d, verifyTokenStr decode jwtSecret now tok = some d ∧
          (∃ u, getUserById db d.userId = some u) ∧
          (∃ s, getActiveSession db now (hashToken sha tok) = some s)))) ∧
    ((¬ ∃ user sess th, authenticateToken decode jwtSecret sha db now uf sf hdr
        = AuthOutcome.proceed user sess th) →
      ((∃ e, authenticateToken decode jwtSecret sha db now uf sf hdr
          = AuthOutcome.unauthorized e) ∨
        authenticateToken decode jwtSecret sha db now uf sf hdr
          = AuthOutcome.serverError)) := by
  constructor
  · constructor
    · rintro ⟨user, sess, th, hA⟩
      cases he : extractToken hdr with
      | none => simp [authenticateToken, he] at hA
      | some tok =>
        by_cases ht : tok = ""
        · simp [authenticateToken, he, ht] at hA
        · cases hv : verifyTokenStr decode jwtSecret now tok with
          | none => simp [authenticateToken, he, ht, hv] at hA
          | some d =>
            cases uf with
            | true => simp [authenticateToken, he, ht, hv] at hA
            | false =>
              cases hu : getUserById db d.userId with
              | none => simp [authenticateToken, he, ht, hv, hu] at hA
              | some u =>
                cases sf with
                | true => simp [authenticateToken, he, ht, hv, hu] at hA
                | false =>
                  cases hs : getActiveSession db now (hashToken sha tok) with
                  | none => simp [authenticateToken, he, ht, hv, hu, hs] at hA
                  | some s =>
                    exact ⟨tok, rfl, ht, rfl, rfl, d, hv, ⟨u, hu⟩, ⟨s, hs⟩⟩
    · rintro ⟨tok, he, ht, huf, hsf, d, hv, ⟨u, hu⟩, ⟨s, hs⟩⟩
      subst huf
      subst hsf
      exact ⟨u, s, hashToken sha tok, by simp [authenticateToken, he, ht, hv, hu, hs]⟩
  · intro hnp
    cases hA : authenticateToken decode jwtSecret sha db now uf sf hdr with
    | proceed u s th => exact absurd ⟨u, s, th, hA⟩ hnp
    | unauthorized e => exact Or.inl ⟨e, rfl⟩
    | serverError => exact Or.inr rfl

/-- Witness for C9: a fully valid request proceeds. -/
theorem authenticateToken_spec_witness :
    ∃ user sess th, authenticateToken decodeStub (some "k") shaStub dbStub2 5
      false false (some "Bearer tok") = AuthOutcome.proceed user sess th :=
  (authenticateToken_spec decodeStub (some "k") shaStub dbStub2 5 false false
      (some "Bearer tok")).1.mpr
    ⟨"tok", rfl, by decide, rfl, rfl, userPayloadStub, rfl, ⟨userRowStub, rfl⟩,
      ⟨(sessionRowStub2, userRowStub), rfl⟩⟩

end Webapp
